import Mathlib

/-!
Verification of VeriProvider-AI against its specification.

Shallow embedding of the evidence-aggregation pipeline of the repository:
the name normalizer and fuzzy identity matcher
(src/investigator.py, NameVerificationStep), the web search aggregator and
footprint classifier (src/web_tool.py), the phone validator
(src/phone_tool.py), and the step pipeline with its report assembly
(src/investigator.py, InvestigatorAgent.process_provider) together with the
status derivation of the orchestrator (main_test.py,
VerificationPipeline.run).

Modelling conventions: Python strings are Lean strings, with str.lower
modelled by the ASCII case mapping Char.toLower (the names and URLs handled
by the program are ASCII); Python dicts with a fixed key set become
structures with Option fields for keys that may be absent; the report dict,
whose key set is itself under scrutiny, is an association list; external
calls that may raise become Except-valued collaborator behaviours, and a
try/except block becomes a match on that Except; floats never reach
arithmetic that the claims depend on, so similarity ratios are exact
rationals (the float comparison ratio < 0.60 agrees with the exact rational
comparison for all combined name lengths below 10^15).
-/

namespace VeriProvider

/-- Exceptions a Python collaborator call can raise. The investigator only
ever distinguishes NameError (raised when the tool imports failed) from
every other exception, and interpolates str(e) into a log line. -/
inductive PyExc where
  | nameError (msg : String)
  | other (msg : String)
deriving DecidableEq

/-- Embeds str(e) as used in the audit-log f-strings. -/
def PyExc.msg : PyExc → String
  | .nameError m => m
  | .other m => m

/-- The 32 characters of Python string.punctuation, which
NameVerificationStep strips via str.translate. -/
def punctuationChars : List Char :=
  ['!', '\x22', '#', '$', '%', '&', '\x27', '(', ')', '*', '+', ',', '-',
   '.', '/', ':', ';', '<', '=', '>', '?', '@', '[', '\x5c', ']', '^', '_',
   '\x60', '\x7b', '|', '\x7d', '~']

/-- Embeds the nested helper normalize of
NameVerificationStep._is_name_mismatch (src/investigator.py lines 98-101):
empty (or None, merged into the empty string) input maps to the empty
string, otherwise the input is lower-cased and all string.punctuation
characters are removed. -/
def normalize (s : String) : String :=
  if s = "" then ""
  else ⟨(s.data.map Char.toLower).filter (fun c => !punctuationChars.contains c)⟩

/-- Length of the longest common prefix of two character lists. -/
def commonPrefixLen : List Char → List Char → Nat
  | a :: as, b :: bs => if a = b then commonPrefixLen as bs + 1 else 0
  | _, _ => 0

/-- Inner scan of find_longest_match: walk the start positions j of the
second sequence in ascending order, keeping the best block
(bi, bj, bk) found so far and improving it only strictly. ai is the
suffix of the first sequence at the current row i, bs the remaining
suffix of the second sequence at position j. -/
def flmScanB (ai : List Char) (i : Nat) : Nat → List Char → Nat → Nat → Nat →
    Nat × Nat × Nat
  | _, [], bi, bj, bk => (bi, bj, bk)
  | j, bs@(_ :: bs2), bi, bj, bk =>
    let k := commonPrefixLen ai bs
    if bk < k then flmScanB ai i (j + 1) bs2 i j k
    else flmScanB ai i (j + 1) bs2 bi bj bk

/-- Outer scan of find_longest_match over the start positions i of the
first sequence in ascending order. -/
def flmScanA (b : List Char) : Nat → List Char → Nat → Nat → Nat →
    Nat × Nat × Nat
  | _, [], bi, bj, bk => (bi, bj, bk)
  | i, as2@(_ :: rest), bi, bj, bk =>
    match flmScanB as2 i 0 b bi bj bk with
    | (bi2, bj2, bk2) => flmScanA b (i + 1) rest bi2 bj2 bk2

/-- Embeds difflib.SequenceMatcher.find_longest_match for the junk-free
case: among all maximal matching blocks the one starting earliest in the
first sequence, then earliest in the second, returned as
(start in a, start in b, size). Start positions are scanned in ascending
order (i outer, j inner) with strictly improving size, which is exactly
the tie-break difflib documents and its dynamic program implements. -/
def findLongestMatch (a b : List Char) : Nat × Nat × Nat :=
  flmScanA b 0 a 0 0 0

/-- Fuel-indexed total length of the matching blocks that
difflib.SequenceMatcher.get_matching_blocks finds: recursively take the
longest match and recurse on the pieces to its left and to its right.
Every recursive call strictly decreases a.length + b.length, so any fuel
of at least a.length + b.length covers the whole recursion; the fuel
pattern only serves to make the definition structurally terminating. -/
def matchingTotalAux : Nat → List Char → List Char → Nat
  | 0, _, _ => 0
  | fuel + 1, a, b =>
    let m := findLongestMatch a b
    if m.2.2 = 0 then 0
    else
      matchingTotalAux fuel (a.take m.1) (b.take m.2.1) + m.2.2 +
        matchingTotalAux fuel (a.drop (m.1 + m.2.2)) (b.drop (m.2.1 + m.2.2))

/-- Total size of all matching blocks of the two sequences. -/
def matchingTotal (a b : List Char) : Nat :=
  matchingTotalAux (a.length + b.length + 1) a b

/-- Embeds difflib.SequenceMatcher(None, a, b).ratio(): the
Ratcliff/Obershelp measure 2*M/T where M is the total size of the matched
blocks and T the combined length, and 1 when both sequences are empty.
The autojunk heuristic of SequenceMatcher only activates when the second
sequence has at least 200 elements and is inert for the name comparisons
performed by this program. -/
def seqRatio (a b : String) : ℚ :=
  let t := a.length + b.length
  if t = 0 then 1 else (2 * matchingTotal a.data b.data : ℚ) / t

/-- Models Python str.strip: removes whitespace from both ends. Defined
on the character list so that it evaluates inside the kernel. -/
def pyStrip (s : String) : String :=
  ⟨((s.data.dropWhile Char.isWhitespace).reverse.dropWhile Char.isWhitespace).reverse⟩

/-- Models Python str.lower as the ASCII case mapping on the character
list (semantically String.toLower, but kernel-evaluable). -/
def pyLower (s : String) : String :=
  ⟨s.data.map Char.toLower⟩

/-- Registry record as assembled by fetch_npi_data (src/npi_tool.py lines
169-180); every field there is a string, with the empty string as the
missing-data default. -/
structure NpiData where
  npi : String
  first_name : String
  last_name : String
  organization_name : String
  credential : String
  address : String
  city : String
  state : String
  phone : String
  specialty : String
deriving DecidableEq

/-- Registry display name as computed in _is_name_mismatch (step A): the
organization name when truthy, otherwise first and last name joined and
stripped. -/
def displayName (d : NpiData) : String :=
  if d.organization_name ≠ "" then d.organization_name
  else pyStrip (d.first_name ++ " " ++ d.last_name)

/-- Embeds NameVerificationStep._is_name_mismatch (src/investigator.py
lines 80-113). Returns (is_mismatch, ratio, registry_name). The vision
name is an Option to model Python None; None and the empty string are both
falsy for the step B check. -/
def is_name_mismatch (visionName : Option String) (registryData : Option NpiData) :
    Bool × ℚ × String :=
  match registryData with
  | none => (false, 0, "")
  | some d =>
    let registryName := displayName d
    if visionName.getD "" = "" ∨ registryName = "" then (false, 0, registryName)
    else
      let ratio := seqRatio (normalize (visionName.getD "")) (normalize registryName)
      (decide (ratio < 3 / 5), ratio, registryName)

/-! ## Web search aggregator and footprint classifier (src/web_tool.py) -/

/-- A raw search hit as handled by process_results: a Python dict whose
url and title keys may each be absent (res.get returns None). -/
structure Hit where
  url : Option String
  title : Option String
deriving DecidableEq

/-- A result object of the googlesearch primary provider: res.url is
always a string, res.title may be None. -/
structure GoogleResult where
  url : String
  title : Option String
deriving DecidableEq

/-- Embeds search_duckduckgo_html_fallback (src/web_tool.py lines 6-34).
The behaviour respMatches models the outcome of the requests.post call,
raise_for_status and the regex extraction of (href, title) pairs from the
response body: either an exception (caught, yielding the empty list) or
the list of regex matches, which is truncated to num_results and shaped
into url/title hits. -/
def search_duckduckgo_html_fallback (respMatches : Except PyExc (List (String × String)))
    (num_results : Nat) : List Hit :=
  match respMatches with
  | .error _ => []
  | .ok ms => (ms.take num_results).map fun m => ⟨some m.1, some m.2⟩

/-- Embeds _perform_web_search (src/web_tool.py lines 36-61). The google
behaviour models the outcome of the googlesearch call: an exception or a
result list. A raised exception or an empty result list falls through to
the DuckDuckGo fallback; otherwise the google results are normalized to
url/title hits, with a None title replaced by the empty string. -/
def _perform_web_search (google : Except PyExc (List GoogleResult))
    (ddg : Except PyExc (List (String × String))) (num_results : Nat) : List Hit :=
  match google with
  | .ok gs =>
    if gs ≠ [] then gs.map (fun g => ⟨some g.url, some (g.title.getD "")⟩)
    else search_duckduckgo_html_fallback ddg num_results
  | .error _ => search_duckduckgo_html_fallback ddg num_results

/-- The digital footprint dict built by find_provider_url and filled in by
process_results. -/
structure Footprint where
  official_site : Option String
  social_media : List String
  directories : List String
  other_mentions : List String
deriving DecidableEq

/-- The empty footprint that find_provider_url passes to process_results. -/
def emptyFootprint : Footprint := ⟨none, [], [], []⟩

/-- Social media domains of process_results (src/web_tool.py lines
101-104). -/
def social_domains : List String :=
  ["linkedin.com", "instagram.com", "facebook.com", "twitter.com", "x.com",
   "youtube.com", "tiktok.com", "pinterest.com"]

/-- Directory and review domains of process_results (src/web_tool.py lines
107-111). -/
def directory_domains : List String :=
  ["healthgrades.com", "webmd.com", "doximity.com", "vitals.com",
   "usnews.com", "yellowpages.com", "sharecare.com", "mapquest.com",
   "yelp.com", "zocdoc.com", "md.com", "health.usnews.com"]

/-- Official site keywords of process_results (src/web_tool.py lines
114-118). -/
def official_keywords : List String :=
  ["clinic", "md", "associates", "heart", "care",
   "hospital", "health", "medical", "center",
   "system", "group", "dr", "physician", "surgery", "official", "home"]

/-- Does hay start with the character list pat? -/
def startsWithL : List Char → List Char → Bool
  | _, [] => true
  | [], _ :: _ => false
  | c :: cs, p :: ps => c = p && startsWithL cs ps

/-- Does the character list pat occur contiguously inside l? -/
def containsSubL : List Char → List Char → Bool
  | [], pat => pat.isEmpty
  | l@(_ :: cs), pat => startsWithL l pat || containsSubL cs pat

/-- Embeds the Python substring test pat in s (containment of pat as a
contiguous substring of s). -/
def strContainsSub (s pat : String) : Bool :=
  containsSubL s.data pat.data

/-- The lower-cased url string the classifier tests domains and keywords
against: res.get with an empty-string default, then str.lower. -/
def hitUrlLower (h : Hit) : String := pyLower (h.url.getD "")

/-- The lower-cased title string of a hit. -/
def hitTitleLower (h : Hit) : String := pyLower (h.title.getD "")

/-- Category A test of process_results: some social media domain occurs in
the lower-cased url. -/
def isSocialHit (h : Hit) : Bool :=
  social_domains.any fun d => strContainsSub (hitUrlLower h) d

/-- Category B test of process_results: some directory domain occurs in
the lower-cased url. -/
def isDirectoryHit (h : Hit) : Bool :=
  directory_domains.any fun d => strContainsSub (hitUrlLower h) d

/-- Category C keyword test of process_results: some official keyword
occurs in the lower-cased title or in the lower-cased url. -/
def officialKeywordHit (h : Hit) : Bool :=
  official_keywords.any fun kw =>
    strContainsSub (hitTitleLower h) kw || strContainsSub (hitUrlLower h) kw

/-- One loop iteration of process_results (src/web_tool.py lines 120-144):
a hit with absent or empty raw url is skipped, otherwise it is appended to
the first matching category in the fixed order social media, directory,
official site (only when official_site is still falsy), other mentions.
The raw (not lower-cased) url is what gets stored. -/
def processResultsStep (fp : Footprint) (res : Hit) : Footprint :=
  let rawUrl := res.url.getD ""
  if rawUrl = "" then fp
  else if isSocialHit res then { fp with social_media := fp.social_media ++ [rawUrl] }
  else if isDirectoryHit res then { fp with directories := fp.directories ++ [rawUrl] }
  else if fp.official_site.getD "" = "" ∧ officialKeywordHit res then
    { fp with official_site := some rawUrl }
  else { fp with other_mentions := fp.other_mentions ++ [rawUrl] }

/-- Embeds process_results (src/web_tool.py lines 96-144): the loop over
the result list mutating the footprint dict in place. -/
def process_results (results : List Hit) (footprint : Footprint) : Footprint :=
  results.foldl processResultsStep footprint

/-- Embeds find_provider_url (src/web_tool.py lines 63-80): search with a
budget of 15 and classify into a fresh footprint. The provider behaviours
are those of the query built from name, city and state. -/
def find_provider_url (google : Except PyExc (List GoogleResult))
    (ddg : Except PyExc (List (String × String))) : Footprint :=
  process_results (_perform_web_search google ddg 15) emptyFootprint

/-- Embeds verify_address_claim (src/web_tool.py lines 82-94): search with
a budget of 5 and collect the url of every hit. The hits produced by
_perform_web_search always carry a url key, which res.get-free indexing
assumes. -/
def verify_address_claim (google : Except PyExc (List GoogleResult))
    (ddg : Except PyExc (List (String × String))) : List String :=
  (_perform_web_search google ddg 5).map fun res => res.url.getD ""

/-! ## Phone validator (src/phone_tool.py) -/

/-- The dict returned by validate_phone. Keys that only some branches set
are Options; valid and original are set by every branch that returns a
dict. -/
structure PhoneData where
  valid : Bool
  original : String
  error : Option String
  formatted_display : Option String
  e164 : Option String
  area_location : Option String
  time_zones : Option (List String)
deriving DecidableEq

/-- Metadata obtained from libphonenumber once a number parsed and
validated: the two formattings, the area description and the time zones. -/
structure PhoneFmt where
  formatted_national : String
  formatted_e164 : String
  area_location : String
  time_zones : List String
deriving DecidableEq

/-- Behaviour of the formatting and geocoding stage of libphonenumber:
either it yields the metadata or some call in it raises. -/
inductive PhoneStage2 where
  | ok (fmt : PhoneFmt)
  | raises (msg : String)
deriving DecidableEq

/-- Behaviour of the phonenumbers library across one validate_phone call:
parse raises NumberParseException, or some call raises another exception
before validity is known, or the number parses with the given validity and
the formatting stage then behaves as stage2 (which is only reached when
the number is valid). -/
inductive PhoneLibBehaviour where
  | parseError (msg : String)
  | raises (msg : String)
  | parsed (is_valid : Bool) (stage2 : PhoneStage2)
deriving DecidableEq

/-- Embeds validate_phone (src/phone_tool.py lines 4-65): None for falsy
input, otherwise always a dict; every exception inside the try block is
caught and becomes an error dict, so the function itself never raises. -/
def validate_phone (phone_str : String) (lib : PhoneLibBehaviour) : Option PhoneData :=
  if phone_str = "" then none
  else
    match lib with
    | .parseError m =>
      some ⟨false, phone_str, some ("Parse Error: " ++ m), none, none, none, none⟩
    | .raises m =>
      some ⟨false, phone_str, some ("Unexpected Error: " ++ m), none, none, none, none⟩
    | .parsed is_valid stage2 =>
      if !is_valid then
        some ⟨false, phone_str, some "Invalid structure or non-existent number",
          none, none, none, none⟩
      else
        match stage2 with
        | .ok f =>
          some ⟨true, phone_str, none, some f.formatted_national, some f.formatted_e164,
            some f.area_location, some f.time_zones⟩
        | .raises m =>
          some ⟨false, phone_str, some ("Unexpected Error: " ++ m), none, none, none, none⟩

/-! ## Geo tool result (src/geo_tool.py) -/

/-- The dict returned by validate_address_osm: coordinates (floats,
modelled as rationals; no arithmetic is performed on them), the OSM
display name, the match type and the parsed address components. The
pipeline reads only match_type, with a default for an absent key. -/
structure GeoData where
  lat : ℚ
  lon : ℚ
  osm_display_name : String
  match_type : Option String
  components : List (String × Option String)
deriving DecidableEq

/-! ## Investigator pipeline (src/investigator.py) -/

/-- The shared context dict of InvestigatorAgent.process_provider. Keys
written later by steps are Options; for geo_data, phone_data and web_data
the value None and an absent key are merged into none, which is also how
the report projection context.get treats them. -/
structure Context where
  target_npi : String
  vision_name : Option String
  status : String
  npi_data : Option NpiData := none
  registry_name : Option String := none
  name_mismatch_flag : Option Bool := none
  geo_data : Option GeoData := none
  phone_data : Option PhoneData := none
  web_data : Option Footprint := none

/-- The four in-repository tool calls the pipeline steps wrap in
try/except, as collaborator behaviours that may raise. -/
structure Collaborators where
  fetchNpiData : String → Except PyExc (Option NpiData)
  validateAddressOsm : String → Except PyExc (Option GeoData)
  validatePhone : String → Except PyExc (Option PhoneData)
  findProviderUrl : String → String → String → Except PyExc (Option Footprint)

/-- Python str() of an optional string, as interpolated into f-strings:
None prints as the four characters None. -/
def pyStrOpt (o : Option String) : String := o.getD "None"

/-- Python truthiness of an optional string: None and the empty string are
falsy. -/
def pyTruthyStr (o : Option String) : Bool := o.getD "" ≠ ""

/-- Models the Python format string percent rendering with one decimal,
as used for similarity percentages in the audit log. -/
def fmt1f (q : ℚ) : String :=
  let n : ℤ := round (q * 10)
  toString (n / 10) ++ "." ++ toString (n % 10)

/-- Embeds NpiRegistryStep.execute (src/investigator.py lines 31-50): the
registry lookup is wrapped in a try that catches only NameError (the
failed-import case); any other exception propagates. A falsy result sets
status INVALID_NPI, otherwise the record and a found log entry are
stored. -/
def npiRegistryStep (c : Collaborators) (ctx : Context) (logs : List String) :
    Except PyExc (Context × List String) := do
  let logs := logs ++ ["Investigator: Querying CMS NPI Registry API..."]
  let npiData ←
    match c.fetchNpiData ctx.target_npi with
    | .error (.nameError _) => pure none
    | .error e => throw e
    | .ok d => pure d
  match npiData with
  | none =>
    pure ({ ctx with status := "INVALID_NPI", npi_data := none },
      logs ++ ["Investigator: NPI not found or invalid."])
  | some d =>
    let entity :=
      if d.organization_name ≠ "" then d.organization_name
      else pyStrip (d.first_name ++ " " ++ d.last_name)
    pure ({ ctx with npi_data := some d },
      logs ++ ["Investigator: NPI record found for " ++ entity])

/-- Embeds NameVerificationStep.execute (src/investigator.py lines 52-78):
pure, no collaborator call. Stores the registry name when truthy, then
either appends a mismatch warning and sets the flag true, or (logging a
confirmation only when both names are truthy) sets the flag false. -/
def nameVerificationStep (ctx : Context) (logs : List String) : Context × List String :=
  let r := is_name_mismatch ctx.vision_name ctx.npi_data
  let ratio := r.2.1
  let registryName := r.2.2
  let ctx := if registryName ≠ "" then { ctx with registry_name := some registryName } else ctx
  if r.1 then
    let warning := "WARNING: Identity mismatch! Document Name (" ++
      pyStrOpt ctx.vision_name ++ ") vs Registry (" ++ registryName ++ ") is " ++
      fmt1f (ratio * 100) ++ "% match."
    ({ ctx with name_mismatch_flag := some true },
      logs ++ ["Investigator: ⚠️ " ++ warning])
  else
    let logs :=
      if pyTruthyStr ctx.vision_name ∧ registryName ≠ "" then
        logs ++ ["Investigator: Name match confirmed (" ++ fmt1f (ratio * 100) ++ "%)."]
      else logs
    ({ ctx with name_mismatch_flag := some false }, logs)

/-- Embeds GeoVerificationStep.execute (src/investigator.py lines
115-134): skipped silently without a registry record; logs the address,
then either calls the geocoder inside a try that catches every exception
(setting geo_data to None and logging the error) or logs that there is no
address. -/
def geoVerificationStep (c : Collaborators) (ctx : Context) (logs : List String) :
    Except PyExc (Context × List String) :=
  match ctx.npi_data with
  | none => .ok (ctx, logs)
  | some d =>
    let address := d.address
    let logs := logs ++ ["Investigator: Verifying address \x27" ++ address ++ "\x27..."]
    if address ≠ "" then
      match c.validateAddressOsm address with
      | .ok geoData =>
        let matchStr :=
          match geoData with
          | some g => g.match_type.getD "UNKNOWN"
          | none => "NONE"
        .ok ({ ctx with geo_data := geoData },
          logs ++ ["Investigator: Address verified. Match: " ++ matchStr])
      | .error e =>
        .ok ({ ctx with geo_data := none },
          logs ++ ["Investigator: Geo-tool error: " ++ e.msg])
    else .ok (ctx, logs ++ ["Investigator: No address to verify."])

/-- Embeds PhoneValidationStep.execute (src/investigator.py lines
136-154): skipped silently without a registry record; with a truthy raw
phone the validator runs inside a try catching every exception (logging
the error and leaving phone_data absent); otherwise a no-phone entry is
logged. -/
def phoneValidationStep (c : Collaborators) (ctx : Context) (logs : List String) :
    Except PyExc (Context × List String) :=
  match ctx.npi_data with
  | none => .ok (ctx, logs)
  | some d =>
    let rawPhone := d.phone
    if rawPhone ≠ "" then
      let logs := logs ++ ["Investigator: Validating phone \x27" ++ rawPhone ++ "\x27..."]
      match c.validatePhone rawPhone with
      | .ok phoneData =>
        let logs :=
          match phoneData with
          | some p =>
            if p.valid then
              logs ++ ["Investigator: Phone valid. Location: " ++ pyStrOpt p.area_location]
            else logs ++ ["Investigator: Phone validation failed."]
          | none => logs ++ ["Investigator: Phone validation failed."]
        .ok ({ ctx with phone_data := phoneData }, logs)
      | .error e =>
        .ok (ctx, logs ++ ["Investigator: Phone tool error: " ++ e.msg])
    else .ok (ctx, logs ++ ["Investigator: No phone number found."])

/-- Embeds WebPresenceStep.execute (src/investigator.py lines 156-191):
skipped silently without a registry record; with a truthy registry name,
city and state the web search runs inside a try catching every exception,
storing the footprint and logging a summary; otherwise an
insufficient-data entry is logged. -/
def webPresenceStep (c : Collaborators) (ctx : Context) (logs : List String) :
    Except PyExc (Context × List String) :=
  match ctx.npi_data with
  | none => .ok (ctx, logs)
  | some d =>
    let logs := logs ++ ["Investigator: Initiating web presence search..."]
    let searchName := ctx.registry_name.getD ""
    if searchName ≠ "" ∧ d.city ≠ "" ∧ d.state ≠ "" then
      match c.findProviderUrl searchName d.city d.state with
      | .ok webData =>
        let ctx := { ctx with web_data := webData }
        let logs :=
          match webData with
          | some w =>
            let official := w.official_site.getD ""
            let socialCount := w.social_media.length
            let dirCount := w.directories.length
            let logs :=
              if official ≠ "" then
                logs ++ ["Investigator: Found Official Website: " ++ official]
              else logs
            if official = "" ∧ socialCount = 0 ∧ dirCount = 0 then
              logs ++ ["Investigator: Web search returned no results (0 profiles)."]
            else
              logs ++ ["Investigator: Web search complete. Found " ++
                toString socialCount ++ " social profiles and " ++
                toString dirCount ++ " directories."]
          | none => logs ++ ["Investigator: Web search returned no results."]
        .ok (ctx, logs)
      | .error e =>
        .ok (ctx, logs ++ ["Investigator: Web tool error: " ++ e.msg])
    else .ok (ctx, logs ++ ["Investigator: Insufficient data for web search."])

/-- Values of the JSON-like report dict process_provider assembles. -/
inductive JVal where
  | null
  | bool (b : Bool)
  | str (s : String)
  | list (l : List String)
  | npi (d : NpiData)
  | geo (g : GeoData)
  | phone (p : PhoneData)
  | web (w : Footprint)
deriving DecidableEq

/-- Lifts an optional value into a report entry, with Python None (or an
absent context key) becoming JSON null. -/
def jOpt (f : α → JVal) : Option α → JVal
  | none => JVal.null
  | some x => f x

/-- The report dict of process_provider (src/investigator.py lines
231-240), as the literal association list the source builds: these seven
keys and no others. The timestamp comes from time.strftime and is a
parameter. -/
def assembleReport (ctx : Context) (logs : List String) (ts : String) :
    List (String × JVal) :=
  [("npi_registry", jOpt JVal.npi ctx.npi_data),
   ("geo_verification", jOpt JVal.geo ctx.geo_data),
   ("phone_verification", jOpt JVal.phone ctx.phone_data),
   ("web_presence", jOpt JVal.web ctx.web_data),
   ("name_mismatch_flag", JVal.bool (ctx.name_mismatch_flag.getD false)),
   ("audit_log", JVal.list logs),
   ("timestamp", JVal.str ts)]

/-- The for-loop guard of process_provider: a step only executes while the
context status is not INVALID_NPI (the loop breaks at the top of the
iteration otherwise; only the first step ever writes the status, so the
per-step guard is equivalent to the break). -/
def runStep (f : Context → List String → Except PyExc (Context × List String))
    (st : Context × List String) : Except PyExc (Context × List String) :=
  if st.1.status = "INVALID_NPI" then .ok st else f st.1 st.2

/-- Embeds InvestigatorAgent.process_provider (src/investigator.py lines
212-240): build the context, run the five steps in order with the
INVALID_NPI short-circuit, and assemble the report dict. An exception a
step does not catch propagates out as the error case. -/
def process_provider (c : Collaborators) (npi_id : String) (vision_name : Option String)
    (ts : String) : Except PyExc (List (String × JVal)) := do
  let logs := ["Investigator: Starting investigation for NPI: " ++ npi_id]
  let ctx : Context := { target_npi := npi_id, vision_name := vision_name, status := "PENDING" }
  let st ← runStep (npiRegistryStep c) (ctx, logs)
  let st ← runStep (fun ctx logs => .ok (nameVerificationStep ctx logs)) st
  let st ← runStep (geoVerificationStep c) st
  let st ← runStep (phoneValidationStep c) st
  let st ← runStep (webPresenceStep c) st
  pure (assembleReport st.1 st.2 ts)

/-- Embeds investigate_provider (src/investigator.py lines 206-210), the
public entry point, which just delegates to process_provider. -/
def investigate_provider (c : Collaborators) (npi_number : String)
    (vision_name : Option String) (ts : String) : Except PyExc (List (String × JVal)) :=
  process_provider c npi_number vision_name ts

/-- Extracts the report from a pipeline outcome; used to state properties
of a run already known to succeed. -/
def reportOf : Except PyExc (List (String × JVal)) → List (String × JVal)
  | .ok r => r
  | .error _ => []

/-- Python truthiness of a report value, as evaluated by the orchestrator
when it tests the name_mismatch_flag entry. -/
def jTruthy : Option JVal → Bool
  | none => false
  | some .null => false
  | some (.bool b) => b
  | some (.str s) => s ≠ ""
  | some (.list l) => l ≠ []
  | some (.npi _) => true
  | some (.geo _) => true
  | some (.phone _) => true
  | some (.web _) => true

/-- Embeds the final status derivation of VerificationPipeline.run
(src/main_test.py lines 105-111): investigation_result.get of the status
key compared with INVALID_NPI, then the truthiness of the mismatch flag,
else complete. -/
def mainTestStatus (r : List (String × JVal)) : String :=
  if r.lookup "status" = some (JVal.str "INVALID_NPI") then "failed_invalid_npi"
  else if jTruthy (r.lookup "name_mismatch_flag") then "warning_identity_mismatch"
  else "complete"

/-! ## Fixtures and helper lemmas -/

/-- Registry record of an individual provider with display name John
Smith, complete enough that every later pipeline step has its
preconditions met. -/
def recJS : NpiData :=
  ⟨"1234567890", "John", "Smith", "", "MD", "1 Main St, Springfield, IL 62704",
   "Springfield", "IL", "2024561111", "Cardiology"⟩

/-- Registry record of the organization Providence Hospital. -/
def recProvidence : NpiData :=
  ⟨"1457890234", "", "", "Providence Hospital", "", "6801 Airport Blvd, Mobile, AL 36608",
   "Mobile", "AL", "2515556789", "General Acute Care Hospital"⟩

/-- Collaborators whose registry lookup finds nothing and whose other
tools return nothing. -/
def collabNone : Collaborators :=
  ⟨fun _ => .ok none, fun _ => .ok none, fun _ => .ok none, fun _ _ _ => .ok none⟩

/-- Collaborators whose registry lookup raises an exception that is not a
NameError. -/
def collabBoom : Collaborators :=
  ⟨fun _ => .error (.other "boom"), fun _ => .ok none, fun _ => .ok none,
   fun _ _ _ => .ok none⟩

/-- Collaborators that resolve the identifier to recJS while the geo,
phone and web tools each raise the given exception. -/
def collabErr (e1 e2 e3 : PyExc) : Collaborators :=
  ⟨fun _ => .ok (some recJS), fun _ => .error e1, fun _ => .error e2,
   fun _ _ _ => .error e3⟩

/-- Collaborators that resolve the identifier to recJS and whose other
tools return nothing. -/
def collabJS : Collaborators :=
  ⟨fun _ => .ok (some recJS), fun _ => .ok none, fun _ => .ok none, fun _ _ _ => .ok none⟩

/-- A hit survives the discard check of process_results exactly when its
raw url is present and non-empty. -/
def keptHit (h : Hit) : Bool := decide (h.url.getD "" ≠ "")

/-- Total number of classified urls a footprint holds, counting the
official site slot by its truthiness. -/
def countFootprint (fp : Footprint) : Nat :=
  fp.social_media.length + fp.directories.length + fp.other_mentions.length +
    (if fp.official_site.getD "" = "" then 0 else 1)

/-- A hit that reaches the official-site category and passes its keyword
rule: kept, claimed by neither the social nor the directory category, and
matching an official keyword. -/
def qualifiesOfficial (h : Hit) : Bool :=
  keptHit h && !isSocialHit h && !isDirectoryHit h && officialKeywordHit h

theorem toLower_ascii_shift (m : Nat) (h1 : 97 ≤ m) (h2 : m ≤ 122) :
    (Char.ofNat m).toNat = m := by
  interval_cases m <;> decide

theorem toLower_toLower (c : Char) : c.toLower.toLower = c.toLower := by
  unfold Char.toLower
  by_cases h : c.toNat ≥ 65 ∧ c.toNat ≤ 90
  · rw [if_pos h]
    have hv : (Char.ofNat (c.toNat + 32)).toNat = c.toNat + 32 :=
      toLower_ascii_shift _ (by omega) (by omega)
    rw [if_neg]
    rw [hv]
    omega
  · rw [if_neg h, if_neg h]

theorem normalize_data (s : String) :
    (normalize s).data =
      (s.data.map Char.toLower).filter fun c => !punctuationChars.contains c := by
  unfold normalize
  by_cases h : s = ""
  · subst h; rfl
  · rw [if_neg h]

/-- C9. The name normalizer lower-cases its input and strips exactly the
string.punctuation characters, maps the empty input to the empty string,
and is idempotent. -/
theorem normalize_idempotent_spec :
    (∀ s : String, normalize (normalize s) = normalize s) ∧
    normalize "" = "" ∧
    (∀ s : String,
      (normalize s).data =
        (s.data.map Char.toLower).filter fun c => !punctuationChars.contains c) := by
  refine ⟨?_, rfl, normalize_data⟩
  intro s
  apply String.ext
  rw [normalize_data, normalize_data s]
  have hmap : ((s.data.map Char.toLower).filter
      (fun c => !punctuationChars.contains c)).map Char.toLower =
      (s.data.map Char.toLower).filter fun c => !punctuationChars.contains c := by
    have := List.map_congr_left (l := (s.data.map Char.toLower).filter
        fun c => !punctuationChars.contains c)
      (f := Char.toLower) (g := id) ?_
    · simpa using this
    · intro a ha
      rcases List.mem_map.mp (List.mem_filter.mp ha).1 with ⟨b, _, hb⟩
      simp [← hb, toLower_toLower]
  rw [hmap, List.filter_filter]
  apply List.filter_congr
  intro a ha
  simp

set_option maxRecDepth 8000 in
theorem seqRatio_drJohn : seqRatio (normalize "Dr. John A. Smith") (normalize "John Smith") = 4 / 5 := by
  have h1 : normalize "Dr. John A. Smith" = "dr john a smith" := by decide
  have h2 : normalize "John Smith" = "john smith" := by decide
  rw [h1, h2]
  have hM : matchingTotal "dr john a smith".data "john smith".data = 10 := by decide
  have hA : "dr john a smith".length = 15 := rfl
  have hB : "john smith".length = 10 := rfl
  simp only [seqRatio, hM, hA, hB]
  norm_num

set_option maxRecDepth 8000 in
theorem seqRatio_terminator :
    seqRatio (normalize "Terminator Health") (normalize "Providence Hospital") = 1 / 3 := by
  have h1 : normalize "Terminator Health" = "terminator health" := by decide
  have h2 : normalize "Providence Hospital" = "providence hospital" := by decide
  rw [h1, h2]
  have hM : matchingTotal "terminator health".data "providence hospital".data = 6 := by decide
  have hA : "terminator health".length = 17 := rfl
  have hB : "providence hospital".length = 19 := rfl
  simp only [seqRatio, hM, hA, hB]
  norm_num

/-- C5. For non-empty claimed and registry names the matcher returns
exactly the Ratcliff/Obershelp ratio of the two normalized names together
with the mismatch bit defined by the fixed 0.60 threshold; matching
Dr. John A. Smith against the record displaying John Smith yields
similarity 4/5 of at least 0.60 and no mismatch, while Terminator Health
against Providence Hospital yields similarity 1/3 and a mismatch. -/
theorem matcher_threshold_and_examples :
    (∀ (v : String) (d : NpiData), v ≠ "" → displayName d ≠ "" →
      is_name_mismatch (some v) (some d) =
        (decide (seqRatio (normalize v) (normalize (displayName d)) < 3 / 5),
         seqRatio (normalize v) (normalize (displayName d)), displayName d)) ∧
    is_name_mismatch (some "Dr. John A. Smith") (some recJS) = (false, 4 / 5, "John Smith") ∧
    (3 / 5 : ℚ) ≤ (is_name_mismatch (some "Dr. John A. Smith") (some recJS)).2.1 ∧
    is_name_mismatch (some "Terminator Health") (some recProvidence) =
      (true, 1 / 3, "Providence Hospital") := by
  have hgen : ∀ (v : String) (d : NpiData), v ≠ "" → displayName d ≠ "" →
      is_name_mismatch (some v) (some d) =
        (decide (seqRatio (normalize v) (normalize (displayName d)) < 3 / 5),
         seqRatio (normalize v) (normalize (displayName d)), displayName d) := by
    intro v d hv hd
    simp [is_name_mismatch, hv, hd]
  have hJS : displayName recJS = "John Smith" := by decide
  have hPr : displayName recProvidence = "Providence Hospital" := by decide
  have e1 := hgen "Dr. John A. Smith" recJS (by decide) (by rw [hJS]; decide)
  have e2 := hgen "Terminator Health" recProvidence (by decide) (by rw [hPr]; decide)
  rw [hJS] at e1
  rw [hPr] at e2
  rw [seqRatio_drJohn] at e1
  rw [seqRatio_terminator] at e2
  refine ⟨hgen, ?_, ?_, ?_⟩
  · rw [e1]
    norm_num
  · rw [e1]
    norm_num
  · rw [e2]
    norm_num

/-- C5 witness: the general part of the threshold theorem instantiated at
the concrete Terminator Health claim against the Providence Hospital
record. -/
theorem matcher_threshold_witness :
    is_name_mismatch (some "Terminator Health") (some recProvidence) =
      (decide (seqRatio (normalize "Terminator Health")
          (normalize (displayName recProvidence)) < 3 / 5),
       seqRatio (normalize "Terminator Health") (normalize (displayName recProvidence)),
       displayName recProvidence) :=
  matcher_threshold_and_examples.1 "Terminator Health" recProvidence
    (by decide) (by decide)

/-- C10. validate_phone is a total function of the input and the library
behaviour (every exception inside it is caught): it returns None exactly
for the empty (falsy) input; any returned dict carries the original input
and has an error message exactly when valid is false; a parse failure or
an unexpected internal error yields the corresponding invalid dict. -/
theorem validate_phone_contract :
    ∀ (p : String) (lib : PhoneLibBehaviour),
      (validate_phone p lib = none ↔ p = "") ∧
      (∀ r, validate_phone p lib = some r →
        r.original = p ∧ (r.valid = false ↔ r.error.isSome = true)) ∧
      (p ≠ "" → validate_phone p (.parseError "m") =
        some ⟨false, p, some "Parse Error: m", none, none, none, none⟩) ∧
      (p ≠ "" → validate_phone p (.raises "m") =
        some ⟨false, p, some "Unexpected Error: m", none, none, none, none⟩) := by
  intro p lib
  have hpe : validate_phone p (.parseError "m") =
      if p = "" then none
      else some ⟨false, p, some ("Parse Error: " ++ "m"), none, none, none, none⟩ := rfl
  have hra : validate_phone p (.raises "m") =
      if p = "" then none
      else some ⟨false, p, some ("Unexpected Error: " ++ "m"), none, none, none, none⟩ := rfl
  by_cases hp : p = ""
  · subst hp
    have h0 : validate_phone "" lib = none := by
      rcases lib with m | m | ⟨v, s2⟩
      all_goals rfl
    exact ⟨⟨fun _ => rfl, fun _ => h0⟩,
      fun r hr => Option.noConfusion (h0 ▸ hr),
      fun h => absurd rfl h, fun h => absurd rfl h⟩
  · refine ⟨⟨fun h => ?_, fun h => absurd h hp⟩, fun r hr => ?_,
      fun _ => ?_, fun _ => ?_⟩
    rotate_left 2
    · rw [hpe, if_neg hp]
      rfl
    · rw [hra, if_neg hp]
      rfl
    · rcases lib with m | m | ⟨v, s2⟩
      · rw [show validate_phone p (.parseError m) =
            if p = "" then none
            else some ⟨false, p, some ("Parse Error: " ++ m), none, none, none, none⟩
            from rfl, if_neg hp] at h
        exact Option.noConfusion h
      · rw [show validate_phone p (.raises m) =
            if p = "" then none
            else some ⟨false, p, some ("Unexpected Error: " ++ m), none, none, none, none⟩
            from rfl, if_neg hp] at h
        exact Option.noConfusion h
      · cases s2 with
        | ok f =>
          rw [show validate_phone p (.parsed v (.ok f)) =
              if p = "" then none
              else if !v then some ⟨false, p,
                  some "Invalid structure or non-existent number", none, none, none, none⟩
                else some ⟨true, p, none, some f.formatted_national, some f.formatted_e164,
                  some f.area_location, some f.time_zones⟩ from rfl, if_neg hp] at h
          cases v <;> simp at h
        | raises m =>
          rw [show validate_phone p (.parsed v (.raises m)) =
              if p = "" then none
              else if !v then some ⟨false, p,
                  some "Invalid structure or non-existent number", none, none, none, none⟩
                else some ⟨false, p, some ("Unexpected Error: " ++ m),
                  none, none, none, none⟩ from rfl, if_neg hp] at h
          cases v <;> simp at h
    · rcases lib with m | m | ⟨v, s2⟩
      · rw [show validate_phone p (.parseError m) =
            if p = "" then none
            else some ⟨false, p, some ("Parse Error: " ++ m), none, none, none, none⟩
            from rfl, if_neg hp] at hr
        cases hr
        exact ⟨rfl, by simp⟩
      · rw [show validate_phone p (.raises m) =
            if p = "" then none
            else some ⟨false, p, some ("Unexpected Error: " ++ m), none, none, none, none⟩
            from rfl, if_neg hp] at hr
        cases hr
        exact ⟨rfl, by simp⟩
      · cases s2 with
        | ok f =>
          rw [show validate_phone p (.parsed v (.ok f)) =
              if p = "" then none
              else if !v then some ⟨false, p,
                  some "Invalid structure or non-existent number", none, none, none, none⟩
                else some ⟨true, p, none, some f.formatted_national, some f.formatted_e164,
                  some f.area_location, some f.time_zones⟩ from rfl, if_neg hp] at hr
          cases v <;> simp at hr <;> cases hr <;> exact ⟨rfl, by simp⟩
        | raises m =>
          rw [show validate_phone p (.parsed v (.raises m)) =
              if p = "" then none
              else if !v then some ⟨false, p,
                  some "Invalid structure or non-existent number", none, none, none, none⟩
                else some ⟨false, p, some ("Unexpected Error: " ++ m),
                  none, none, none, none⟩ from rfl, if_neg hp] at hr
          cases v <;> simp at hr <;> cases hr <;> exact ⟨rfl, by simp⟩

/-- C10 witness: the contract instantiated at a non-empty input that fails
to parse. -/
theorem validate_phone_contract_witness :
    validate_phone "12345" (.parseError "m") =
      some ⟨false, "12345", some "Parse Error: m", none, none, none, none⟩ :=
  (validate_phone_contract "12345" (.parseError "m")).2.2.1 (by decide)

/-- C6. The web search aggregator is total (both provider failures are
caught, so it always returns a list): when the primary provider raises or
returns no results, the secondary provider's normalized results are
returned, and a secondary failure yields the empty list. -/
theorem web_search_fallback_total :
    (∀ (e : PyExc) (ddg : Except PyExc (List (String × String))) (n : Nat),
      _perform_web_search (.error e) ddg n = search_duckduckgo_html_fallback ddg n) ∧
    (∀ (ddg : Except PyExc (List (String × String))) (n : Nat),
      _perform_web_search (.ok []) ddg n = search_duckduckgo_html_fallback ddg n) ∧
    (∀ (e : PyExc) (n : Nat), search_duckduckgo_html_fallback (.error e) n = []) ∧
    (∀ (ms : List (String × String)) (n : Nat),
      search_duckduckgo_html_fallback (.ok ms) n =
        (ms.take n).map fun m => ⟨some m.1, some m.2⟩) := by
  refine ⟨fun e ddg n => rfl, fun ddg n => rfl, fun e n => rfl, fun ms n => rfl⟩

theorem processResultsStep_skip (fp : Footprint) (h : Hit) (hk : keptHit h = false) :
    processResultsStep fp h = fp := by
  have : h.url.getD "" = "" := by
    simpa [keptHit] using hk
  simp [processResultsStep, this]

theorem processResultsStep_count (fp : Footprint) (h : Hit) :
    countFootprint (processResultsStep fp h) =
      countFootprint fp + (if keptHit h then 1 else 0) := by
  by_cases hk : h.url.getD "" = ""
  · simp [processResultsStep, hk, keptHit]
  · have hkt : keptHit h = true := by simp [keptHit, hk]
    rw [hkt]
    simp only [processResultsStep, if_neg hk]
    split_ifs with h1 h2 h3
    · simp [countFootprint]
      omega
    · simp [countFootprint]
      omega
    · simp [countFootprint, h3.1, hk]
    · simp [countFootprint]
      omega

theorem process_results_count (results : List Hit) :
    ∀ fp : Footprint,
      countFootprint (process_results results fp) =
        countFootprint fp + (results.filter keptHit).length := by
  induction results with
  | nil => intro fp; simp [process_results]
  | cons h t ih =>
    intro fp
    have : process_results (h :: t) fp = process_results t (processResultsStep fp h) := rfl
    rw [this, ih, processResultsStep_count]
    by_cases hk : keptHit h
    · simp [hk]
      omega
    · simp [hk]

theorem process_results_discards (results : List Hit) :
    ∀ fp : Footprint, process_results results fp = process_results (results.filter keptHit) fp := by
  induction results with
  | nil => intro fp; rfl
  | cons h t ih =>
    intro fp
    by_cases hk : keptHit h
    · have : (h :: t).filter keptHit = h :: t.filter keptHit := by simp [hk]
      rw [this]
      exact ih (processResultsStep fp h)
    · have hk2 : keptHit h = false := by simpa using hk
      have : (h :: t).filter keptHit = t.filter keptHit := by simp [hk2]
      rw [this]
      calc process_results (h :: t) fp
          = process_results t (processResultsStep fp h) := rfl
        _ = process_results t fp := by rw [processResultsStep_skip fp h hk2]
        _ = process_results (t.filter keptHit) fp := ih fp

theorem processResultsStep_official_sticky (fp : Footprint) (h : Hit)
    (ht : fp.official_site.getD "" ≠ "") :
    (processResultsStep fp h).official_site = fp.official_site := by
  simp only [processResultsStep]
  split_ifs with h1 h2 h3 h4
  · rfl
  · rfl
  · rfl
  · exact absurd h4.1 ht
  · rfl

theorem process_results_official_sticky (results : List Hit) :
    ∀ fp : Footprint, fp.official_site.getD "" ≠ "" →
      (process_results results fp).official_site = fp.official_site := by
  induction results with
  | nil => intro fp _; rfl
  | cons h t ih =>
    intro fp ht
    have hstep := processResultsStep_official_sticky fp h ht
    calc (process_results (h :: t) fp).official_site
        = (process_results t (processResultsStep fp h)).official_site := rfl
      _ = (processResultsStep fp h).official_site := by
          apply ih
          rw [hstep]
          exact ht
      _ = fp.official_site := hstep

theorem process_results_official_of_none (results : List Hit) :
    ∀ fp : Footprint, fp.official_site = none →
      (process_results results fp).official_site =
        ((results.filter qualifiesOfficial).head?.map fun h => h.url.getD "") := by
  induction results with
  | nil => intro fp h0; simpa [process_results] using h0
  | cons h t ih =>
    intro fp h0
    have hstep : process_results (h :: t) fp = process_results t (processResultsStep fp h) := rfl
    by_cases hk : keptHit h
    · have hne : h.url.getD "" ≠ "" := by simpa [keptHit] using hk
      by_cases hs : isSocialHit h
      · have hq : qualifiesOfficial h = false := by simp [qualifiesOfficial, hs]
        have hof : (processResultsStep fp h).official_site = none := by
          simp [processResultsStep, hne, hs, h0]
        rw [hstep, ih _ hof]
        simp [hq]
      · by_cases hd : isDirectoryHit h
        · have hq : qualifiesOfficial h = false := by simp [qualifiesOfficial, hd]
          have hof : (processResultsStep fp h).official_site = none := by
            simp [processResultsStep, hne, hs, hd, h0]
          rw [hstep, ih _ hof]
          simp [hq]
        · by_cases hw : officialKeywordHit h
          · have hq : qualifiesOfficial h = true := by
              simp [qualifiesOfficial, keptHit, hne, hs, hd, hw]
            have hofp : (processResultsStep fp h).official_site = some (h.url.getD "") := by
              simp [processResultsStep, hne, hs, hd, hw, h0]
            have hst := process_results_official_sticky t (processResultsStep fp h)
              (by rw [hofp]; simpa using hne)
            rw [hstep, hst, hofp]
            simp [hq]
          · have hq : qualifiesOfficial h = false := by simp [qualifiesOfficial, hw]
            have hof : (processResultsStep fp h).official_site = none := by
              simp [processResultsStep, hne, hs, hd, hw, h0]
            rw [hstep, ih _ hof]
            simp [hq]
    · have hk2 : keptHit h = false := by simpa using hk
      have hq : qualifiesOfficial h = false := by simp [qualifiesOfficial, hk2]
      rw [hstep, processResultsStep_skip fp h hk2, ih _ h0]
      simp [hq]

/-- C7. The footprint classifier discards exactly the hits with an absent
or empty url before classification and is total and exclusive over the
rest: starting from any footprint, the number of stored urls grows by
exactly one per kept hit (each kept hit lands in exactly one bucket), and
the priority order is social over directory over official over other, as
the one-hit run with a url matching a social domain, a directory domain
and an official keyword shows. -/
theorem classifier_totality :
    (∀ (results : List Hit) (fp : Footprint),
      process_results results fp = process_results (results.filter keptHit) fp) ∧
    (∀ (results : List Hit) (fp : Footprint),
      countFootprint (process_results results fp) =
        countFootprint fp + (results.filter keptHit).length) ∧
    process_results [⟨some "linkedin.com/webmd.com/clinic", some ""⟩] emptyFootprint =
      ⟨none, ["linkedin.com/webmd.com/clinic"], [], []⟩ ∧
    isDirectoryHit ⟨some "linkedin.com/webmd.com/clinic", some ""⟩ = true ∧
    officialKeywordHit ⟨some "linkedin.com/webmd.com/clinic", some ""⟩ = true := by
  refine ⟨fun results fp => process_results_discards results fp,
    fun results fp => process_results_count results fp, ?_, ?_, ?_⟩
  · decide
  · decide
  · decide

/-- C8 counterexample. The claim says official_site is None or the url of
the first hit, in input order, satisfying the official-keyword rule. In
this run the first hit satisfies the keyword rule (its url contains the
keyword clinic) but is claimed by the social media category, and
official_site ends up holding the url of the second hit instead. -/
theorem official_site_first_keyword_counterexample :
    (process_results
        [⟨some "facebook.com/clinic", some ""⟩, ⟨some "a.com", some "clinic"⟩]
        emptyFootprint).official_site = some "a.com" ∧
    officialKeywordHit ⟨some "facebook.com/clinic", some ""⟩ = true ∧
    keptHit ⟨some "facebook.com/clinic", some ""⟩ = true ∧
    (([⟨some "facebook.com/clinic", some ""⟩, ⟨some "a.com", some "clinic"⟩] :
        List Hit).filter fun h => keptHit h && officialKeywordHit h).head? =
      some ⟨some "facebook.com/clinic", some ""⟩ ∧
    some "a.com" ≠ (some "facebook.com/clinic" : Option String) := by
  refine ⟨?_, ?_, ?_, ?_, ?_⟩ <;> decide

/-- C8 amended. official_site is either None or the url of the first hit,
in input order, that is kept, claimed by neither the social nor the
directory category, and satisfies the official-keyword rule; and once the
slot is truthy it is sticky, no later hit overwrites it. -/
theorem official_site_first_eligible :
    (∀ results : List Hit,
      (process_results results emptyFootprint).official_site =
        ((results.filter qualifiesOfficial).head?.map fun h => h.url.getD "")) ∧
    (∀ (results : List Hit) (fp : Footprint), fp.official_site.getD "" ≠ "" →
      (process_results results fp).official_site = fp.official_site) :=
  ⟨fun results => process_results_official_of_none results emptyFootprint rfl,
   fun results fp ht => process_results_official_sticky results fp ht⟩

/-- C8 witness: stickiness applied to a footprint that already holds an
official site and a later hit that satisfies the keyword rule. -/
theorem official_site_sticky_witness :
    (process_results [⟨some "y.com", some "clinic"⟩] ⟨some "x.com", [], [], []⟩).official_site =
      some "x.com" :=
  official_site_first_eligible.2 [⟨some "y.com", some "clinic"⟩]
    ⟨some "x.com", [], [], []⟩ (by decide)

/-- C1. The report returned by process_provider carries no status token at
all: on a not-found identifier the run succeeds, the report key set is
exactly npi_registry, geo_verification, phone_verification, web_presence,
name_mismatch_flag, audit_log and timestamp (no status, no match result,
no claimed-phone result, no address-confirmation links), and the
orchestrator of main_test.py, which reads the status key from this report,
therefore derives the status complete even for an invalid identifier. -/
theorem report_has_no_status_token :
    process_provider collabNone "0000000000" none "2026-02-03 00:00:00" =
      .ok [("npi_registry", .null), ("geo_verification", .null), ("phone_verification", .null),
           ("web_presence", .null), ("name_mismatch_flag", .bool false),
           ("audit_log", .list ["Investigator: Starting investigation for NPI: 0000000000",
              "Investigator: Querying CMS NPI Registry API...",
              "Investigator: NPI not found or invalid."]),
           ("timestamp", .str "2026-02-03 00:00:00")] ∧
    (reportOf (process_provider collabNone "0000000000" none "2026-02-03 00:00:00")).lookup
        "status" = none ∧
    mainTestStatus
        (reportOf (process_provider collabNone "0000000000" none "2026-02-03 00:00:00")) =
      "complete" ∧
    (reportOf (process_provider collabNone "0000000000" none "2026-02-03 00:00:00")).map
        Prod.fst =
      ["npi_registry", "geo_verification", "phone_verification", "web_presence",
       "name_mismatch_flag", "audit_log", "timestamp"] :=
  ⟨rfl, rfl, rfl, rfl⟩

/-- C2. For every collaborator set and identifier whose registry lookup
finds no record, the first step is terminal: the returned report holds
null geo, phone and web fields, a false mismatch flag, and exactly the
audit log accumulated up to the not-found entry, so no subsequent step
executed; but the report carries no status key (the INVALID_NPI marker
stays in the internal context and is not part of the report). -/
theorem invalid_npi_short_circuit :
    ∀ (c : Collaborators) (npi : String) (vn : Option String) (ts : String),
      c.fetchNpiData npi = .ok none →
      process_provider c npi vn ts = .ok
        [("npi_registry", .null), ("geo_verification", .null), ("phone_verification", .null),
         ("web_presence", .null), ("name_mismatch_flag", .bool false),
         ("audit_log", .list ["Investigator: Starting investigation for NPI: " ++ npi,
            "Investigator: Querying CMS NPI Registry API...",
            "Investigator: NPI not found or invalid."]),
         ("timestamp", .str ts)] ∧
      (reportOf (process_provider c npi vn ts)).lookup "status" = none := by
  intro c npi vn ts h
  constructor
  · simp [process_provider, npiRegistryStep, runStep, h, assembleReport, jOpt]
    rfl
  · have hr : process_provider c npi vn ts = .ok
        [("npi_registry", .null), ("geo_verification", .null), ("phone_verification", .null),
         ("web_presence", .null), ("name_mismatch_flag", .bool false),
         ("audit_log", .list ["Investigator: Starting investigation for NPI: " ++ npi,
            "Investigator: Querying CMS NPI Registry API...",
            "Investigator: NPI not found or invalid."]),
         ("timestamp", .str ts)] := by
      simp [process_provider, npiRegistryStep, runStep, h, assembleReport, jOpt]
      rfl
    rw [hr]
    rfl

/-- C2 witness: the short-circuit theorem applied to the stub collaborators
whose registry lookup returns no record, at the all-zero identifier. -/
theorem invalid_npi_short_circuit_witness :
    collabNone.fetchNpiData "0000000000" = .ok none ∧
    (process_provider collabNone "0000000000" none "2026-02-03 12:00:00" = .ok
        [("npi_registry", .null), ("geo_verification", .null), ("phone_verification", .null),
         ("web_presence", .null), ("name_mismatch_flag", .bool false),
         ("audit_log", .list ["Investigator: Starting investigation for NPI: " ++ "0000000000",
            "Investigator: Querying CMS NPI Registry API...",
            "Investigator: NPI not found or invalid."]),
         ("timestamp", .str "2026-02-03 12:00:00")] ∧
      (reportOf (process_provider collabNone "0000000000" none "2026-02-03 12:00:00")).lookup
          "status" = none) :=
  ⟨rfl, invalid_npi_short_circuit collabNone "0000000000" none "2026-02-03 12:00:00" rfl⟩

/-- C3 counterexample. A registry collaborator that raises an exception
other than NameError makes process_provider propagate the exception
instead of returning a report: the registry step catches only NameError. -/
theorem registry_exception_propagates :
    process_provider collabBoom "1234567890" none "2026-02-03 00:00:00" =
      .error (.other "boom") := rfl

/-- C3 amended. The geo, phone and web steps catch every exception of
their collaborator, log it and leave the corresponding report field null
while the pipeline continues to a report; the registry step catches only
NameError (treated as a not-found record); any other registry exception
propagates out of the entry point. -/
theorem collaborator_failures_contained :
    (∀ (e1 e2 e3 : PyExc) (npi ts : String),
      (match process_provider (collabErr e1 e2 e3) npi none ts with
        | .ok _ => true
        | .error _ => false) = true ∧
      (reportOf (process_provider (collabErr e1 e2 e3) npi none ts)).lookup
          "geo_verification" = some .null ∧
      (reportOf (process_provider (collabErr e1 e2 e3) npi none ts)).lookup
          "phone_verification" = some .null ∧
      (reportOf (process_provider (collabErr e1 e2 e3) npi none ts)).lookup
          "web_presence" = some .null) ∧
    (∀ (m npi ts : String) (g : String → Except PyExc (Option GeoData))
      (p : String → Except PyExc (Option PhoneData))
      (w : String → String → String → Except PyExc (Option Footprint)),
      process_provider ⟨fun _ => .error (.nameError m), g, p, w⟩ npi none ts =
        .ok [("npi_registry", .null), ("geo_verification", .null),
             ("phone_verification", .null), ("web_presence", .null),
             ("name_mismatch_flag", .bool false),
             ("audit_log", .list ["Investigator: Starting investigation for NPI: " ++ npi,
                "Investigator: Querying CMS NPI Registry API...",
                "Investigator: NPI not found or invalid."]),
             ("timestamp", .str ts)]) :=
  ⟨fun _ _ _ _ _ => ⟨rfl, rfl, rfl, rfl⟩, fun _ _ _ _ _ _ => rfl⟩

theorem ratio_js_js : seqRatio (normalize "John Smith") (normalize "John Smith") = 1 := by
  have h2 : normalize "John Smith" = "john smith" := by decide
  rw [h2]
  have hM : matchingTotal "john smith".data "john smith".data = 10 := by decide
  have hB : "john smith".length = 10 := rfl
  simp only [seqRatio, hM, hB]
  norm_num

theorem inm_none : is_name_mismatch none (some recJS) = (false, 0, "John Smith") := by
  decide

theorem inm_match :
    is_name_mismatch (some "John Smith") (some recJS) = (false, 1, "John Smith") := by
  have hd : displayName recJS = "John Smith" := by decide
  have he := matcher_threshold_and_examples.1 "John Smith" recJS (by decide)
    (by rw [hd]; decide)
  rw [he, hd, ratio_js_js]
  norm_num

theorem inm_dots : is_name_mismatch (some "...") (some recJS) = (true, 0, "John Smith") := by
  have hd : displayName recJS = "John Smith" := by decide
  have he := matcher_threshold_and_examples.1 "..." recJS (by decide) (by rw [hd]; decide)
  rw [he, hd]
  have hn : normalize "..." = "" := by decide
  rw [hn]
  have hr : seqRatio "" (normalize "John Smith") = 0 := by
    have h2 : normalize "John Smith" = "john smith" := by decide
    rw [h2]
    have hM : matchingTotal "".data "john smith".data = 0 := by decide
    have hB : "john smith".length = 10 := rfl
    simp only [seqRatio, hM, hB]
    norm_num
  rw [hr]
  norm_num

theorem flag_lookup_collabJS (vn : Option String) (b : Bool) (q : ℚ) (ts : String)
    (hm : is_name_mismatch vn (some recJS) = (b, q, "John Smith")) :
    (reportOf (process_provider collabJS "1234567890" vn ts)).lookup
      "name_mismatch_flag" = some (.bool b) := by
  cases b <;>
  simp [process_provider, npiRegistryStep, runStep, nameVerificationStep, hm,
    geoVerificationStep, phoneValidationStep, webPresenceStep, assembleReport, jOpt,
    reportOf, collabJS, pyTruthyStr, Bind.bind, Except.bind, Functor.map, Except.map,
    Pure.pure, Except.pure, List.lookup,
    show recJS.organization_name = "" from rfl,
    show recJS.address = "1 Main St, Springfield, IL 62704" from rfl,
    show recJS.phone = "2024561111" from rfl,
    show recJS.city = "Springfield" from rfl,
    show recJS.state = "IL" from rfl]

/-- C4 counterexample. The report never carries a separate match result:
its mismatch indicator is the always-present boolean name_mismatch_flag,
which is false both when there is no claimed name at all and when the
claimed name verifies against the registry record, so the two cases are
not distinguishable in the report; moreover the emptiness check runs
before normalization, so a claimed name of pure punctuation (empty after
normalization) is not skipped but flagged as a mismatch. -/
theorem no_claim_flag_false_counterexample :
    (reportOf (process_provider collabJS "1234567890" none "TS")).lookup
        "name_mismatch_flag" = some (.bool false) ∧
    (reportOf (process_provider collabJS "1234567890" (some "John Smith") "TS")).lookup
        "name_mismatch_flag" = some (.bool false) ∧
    (reportOf (process_provider collabJS "1234567890" (some "...") "TS")).lookup
        "name_mismatch_flag" = some (.bool true) ∧
    (reportOf (process_provider collabJS "1234567890" none "TS")).lookup "match_result" =
      none :=
  ⟨flag_lookup_collabJS none false 0 "TS" inm_none,
   flag_lookup_collabJS (some "John Smith") false 1 "TS" inm_match,
   flag_lookup_collabJS (some "...") true 0 "TS" inm_dots, rfl⟩

/-- C4 amended. When the registry record is absent, or the claimed or
registry name is empty before normalization, the matcher skips the
comparison and reports no mismatch with a zero ratio, and the report then
carries name_mismatch_flag false, the same value as a verified claim: the
report has no optional match-result field, only this always-present
boolean (and never a match_result key). -/
theorem match_absence_amended :
    (∀ v : Option String, is_name_mismatch v none = (false, 0, "")) ∧
    (∀ d : NpiData, is_name_mismatch none (some d) = (false, 0, displayName d)) ∧
    (∀ d : NpiData, is_name_mismatch (some "") (some d) = (false, 0, displayName d)) ∧
    (∀ (v : String) (d : NpiData), displayName d = "" →
      is_name_mismatch (some v) (some d) = (false, 0, "")) ∧
    (∀ (ctx : Context) (logs : List String) (ts : String),
      (assembleReport ctx logs ts).lookup "name_mismatch_flag" =
        some (.bool (ctx.name_mismatch_flag.getD false)) ∧
      (assembleReport ctx logs ts).lookup "match_result" = none) := by
  refine ⟨fun v => rfl, fun d => ?_, fun d => ?_, fun v d hd => ?_,
    fun ctx logs ts => ⟨rfl, rfl⟩⟩
  · simp [is_name_mismatch]
  · simp [is_name_mismatch]
  · simp [is_name_mismatch, hd]

/-- C4 witness: the skip cases of the matcher instantiated at a record
whose display name is empty and at an absent record. -/
theorem match_absence_amended_witness :
    is_name_mismatch (some "John Smith")
        (some ⟨"1", "", "", "", "", "", "", "", "", ""⟩) = (false, 0, "") ∧
    is_name_mismatch (some "John Smith") none = (false, 0, "") :=
  ⟨match_absence_amended.2.2.2.1 "John Smith" ⟨"1", "", "", "", "", "", "", "", "", ""⟩
      (by decide),
   match_absence_amended.1 (some "John Smith")⟩

end VeriProvider
